import Mathlib

/-!
Shallow embedding of the `httpping` monitoring core (`src/monitor.rs`,
`src/config.rs`) and verification of its specification.

Modelling conventions:
* Rust `Duration` values handled by the monitor are always converted with
  `as_millis`, so response times are embedded as `Nat` milliseconds.
* `f64` fields (`uptime_percentage`, `health_score`, timeouts) are embedded
  as exact rationals `ℚ`; the arithmetic the code performs on them
  (`a / b * 100`, `x * 0.7 + y * 0.3`) is mirrored verbatim.
* `u32`/`u64` counters are embedded as `Nat` (the claims under study are
  about the update algorithm, not about wrap-around).
* `chrono::DateTime` timestamps are embedded as `Int` milliseconds;
  `chrono::Duration::minutes m` becomes `60000 * m`.
* `HashMap` ledgers are embedded as functions `String → Option Int`.
-/

namespace HttpPing

/-- Rust `config.rs` `Target`: immutable per-endpoint descriptor. -/
structure Target where
  name : String
  url : String
  method : String
  headers : List (String × String)
  expected_status : List Nat
  expected_content : Option String
  timeout_seconds : ℚ
  interval_seconds : ℚ
  deriving DecidableEq, Repr

/-- Rust `config.rs` `OutputFormat`. -/
inductive OutputFormat where
  | Pretty
  | Json
  | Csv
  | Prometheus
  deriving DecidableEq, Repr

/-- Rust `config.rs` `Settings`. -/
structure Settings where
  default_interval : ℚ
  default_timeout : ℚ
  max_consecutive_failures : Nat
  health_check_window_minutes : Nat
  output_format : OutputFormat
  enable_colors : Bool
  log_file : Option String
  deriving DecidableEq, Repr

/-- Rust `config.rs` `AlertTrigger`. -/
inductive AlertTrigger where
  | ConsecutiveFailures (n : Nat)
  | ResponseTimeMs (threshold : Nat)
  | HealthScoreBelow (x : ℚ)
  | CertExpiringDays (days : Nat)
  deriving DecidableEq, Repr

/-- Rust `config.rs` `Alert`: an alert rule. -/
structure Alert where
  name : String
  webhook_url : String
  trigger_on : List AlertTrigger
  cooldown_minutes : Nat
  deriving DecidableEq, Repr

/-- Rust `config.rs` `Config`. -/
structure Config where
  targets : List Target
  settings : Settings
  alerts : List Alert
  deriving DecidableEq, Repr

/-- Rust `monitor.rs` `HealthCheck`: one immutable probe outcome.
`response_time` is in milliseconds (`Duration::as_millis`),
`timestamp` in milliseconds since an arbitrary epoch. -/
structure HealthCheck where
  target : String
  timestamp : Int
  success : Bool
  status_code : Option Nat
  response_time : Nat
  error : Option String
  cert_expires_days : Option Nat
  dns_time : Option Nat
  connect_time : Option Nat
  deriving DecidableEq, Repr

/-- Rust `monitor.rs` `HealthStatus`. -/
inductive HealthStatus where
  | Healthy
  | Degraded
  | Unhealthy
  | Unknown
  deriving DecidableEq, Repr

/-- Rust `monitor.rs` `TargetHealth`: the mutable per-target aggregate. -/
structure TargetHealth where
  name : String
  url : String
  current_status : HealthStatus
  consecutive_failures : Nat
  total_checks : Nat
  successful_checks : Nat
  uptime_percentage : ℚ
  avg_response_time : Nat
  min_response_time : Nat
  max_response_time : Nat
  last_check : Option Int
  health_score : ℚ
  recent_checks : List HealthCheck
  deriving DecidableEq, Repr

/-- Embedding of `TargetHealth::new` (`monitor.rs` lines 412–428).
`min_response_time` starts at `Duration::from_millis(u64::MAX)`. -/
def TargetHealth.new (target : Target) : TargetHealth where
  name := target.name
  url := target.url
  current_status := HealthStatus.Unknown
  consecutive_failures := 0
  total_checks := 0
  successful_checks := 0
  uptime_percentage := 0
  avg_response_time := 0
  min_response_time := 18446744073709551615
  max_response_time := 0
  last_check := none
  health_score := 1
  recent_checks := []

/-- Embedding of `TargetHealth::update_with_check` (`monitor.rs` lines 430–490),
field by field in the order the Rust code assigns them. -/
def TargetHealth.update_with_check (s : TargetHealth) (check : HealthCheck) :
    TargetHealth :=
  let total_checks' := s.total_checks + 1
  let successful_checks' :=
    if check.success then s.successful_checks + 1 else s.successful_checks
  let consecutive_failures' :=
    if check.success then 0 else s.consecutive_failures + 1
  let min_response_time' :=
    if check.response_time < s.min_response_time then check.response_time
    else s.min_response_time
  let max_response_time' :=
    if check.response_time > s.max_response_time then check.response_time
    else s.max_response_time
  -- `(avg_ms * (total_checks - 1) + check_ms) / total_checks` on integers
  let total_time_ms :=
    s.avg_response_time * (total_checks' - 1) + check.response_time
  let avg_response_time' := total_time_ms / total_checks'
  let uptime_percentage' :=
    (successful_checks' : ℚ) / (total_checks' : ℚ) * 100
  let current_status' :=
    if consecutive_failures' = 0 then
      if uptime_percentage' ≥ 99 then HealthStatus.Healthy
      else if uptime_percentage' ≥ 95 then HealthStatus.Degraded
      else HealthStatus.Unhealthy
    else if consecutive_failures' ≥ 3 then HealthStatus.Unhealthy
    else HealthStatus.Degraded
  let uptime_score := uptime_percentage' / 100
  let response_time_score : ℚ :=
    if avg_response_time' ≤ 500 then 1
    else if avg_response_time' ≤ 2000 then 0.8
    else if avg_response_time' ≤ 5000 then 0.5
    else 0.2
  let health_score' := uptime_score * 0.7 + response_time_score * 0.3
  let pushed := s.recent_checks ++ [check]
  let recent_checks' := if pushed.length > 100 then pushed.tail else pushed
  { name := s.name
    url := s.url
    current_status := current_status'
    consecutive_failures := consecutive_failures'
    total_checks := total_checks'
    successful_checks := successful_checks'
    uptime_percentage := uptime_percentage'
    avg_response_time := avg_response_time'
    min_response_time := min_response_time'
    max_response_time := max_response_time'
    last_check := some check.timestamp
    health_score := health_score'
    recent_checks := recent_checks' }

/-- The aggregate states reachable by the monitor for a given target:
the initial state built by `Monitor::new`, closed under
`update_with_check` (the only mutation performed by the poll loop). -/
inductive Reachable (t : Target) : TargetHealth → Prop where
  | init : Reachable t (TargetHealth.new t)
  | step {s : TargetHealth} (c : HealthCheck) :
      Reachable t s → Reachable t (s.update_with_check c)

/-! ### Prober (`Monitor::perform_health_check`, `monitor.rs` lines 164–252) -/

/-- Rust `reqwest::Method` as used by the prober. -/
inductive Method where
  | GET
  | POST
  | PUT
  | DELETE
  | HEAD
  | OPTIONS
  | PATCH
  deriving DecidableEq, Repr

/-- The method match at `monitor.rs` lines 167–176:
`target.method.to_uppercase()` matched against the known verbs,
anything else falling back to `GET`. -/
def parseMethod (m : String) : Method :=
  match m.toUpper with
  | "GET" => Method.GET
  | "POST" => Method.POST
  | "PUT" => Method.PUT
  | "DELETE" => Method.DELETE
  | "HEAD" => Method.HEAD
  | "OPTIONS" => Method.OPTIONS
  | "PATCH" => Method.PATCH
  | _ => Method.GET

/-- Header assembly at `monitor.rs` lines 181–188: the target's headers,
plus a random User-Agent when neither `"User-Agent"` nor `"user-agent"`
is among the configured header keys. -/
def effectiveHeaders (t : Target) (randomUA : String) : List (String × String) :=
  if t.headers.any (fun p => p.fst = "User-Agent")
      || t.headers.any (fun p => p.fst = "user-agent") then
    t.headers
  else
    t.headers ++ [("User-Agent", randomUA)]

/-- Embedding of `Monitor::new` (`monitor.rs` lines 61–64): the code builds one `reqwest::Client`
for the whole monitor with `config.settings.default_timeout`; this is the
only timeout ever installed on the probe path. -/
def clientTimeout (cfg : Config) : ℚ :=
  cfg.settings.default_timeout

/-- The single HTTP request a probe iteration issues: method, headers and
the timeout of the client it is sent through. -/
structure BuiltRequest where
  method : Method
  headers : List (String × String)
  timeout : ℚ
  deriving DecidableEq, Repr

/-- The request `perform_health_check` builds and sends for `t` when the
monitor was created from `cfg` (exactly one request per iteration). -/
def buildRequest (cfg : Config) (t : Target) (randomUA : String) : BuiltRequest where
  method := parseMethod t.method
  headers := effectiveHeaders t randomUA
  timeout := clientTimeout cfg

/-- An HTTP response as the prober observes it: the status code, and the
outcome of reading the body if the prober asks for it (`Except.error`
models `response.text()` failing). -/
structure HttpResponse where
  status_code : Nat
  body : Except String String
  deriving Repr

/-- How the prober classifies the response (`monitor.rs` lines 190–238);
`bodyRead` records whether `response.text()` was awaited at all. -/
structure CheckOutcome where
  success : Bool
  error : Option String
  bodyRead : Bool
  deriving DecidableEq, Repr

/-- Status acceptance (`monitor.rs` lines 196–200): membership in
`expected_status` when non-empty, else `response.status().is_success()`
(which is `200..=299`). -/
def statusOk (t : Target) (code : Nat) : Bool :=
  if t.expected_status.isEmpty then 200 ≤ code && code < 300
  else t.expected_status.contains code

/-- The success/error/body-read classification of a received response
(`monitor.rs` lines 196–238): `success = status_ok && content_ok`, with
the body only read when `expected_content` is configured. -/
def classifyResponse (t : Target) (r : HttpResponse) : CheckOutcome :=
  let status_ok := statusOk t r.status_code
  match t.expected_content with
  | none =>
      { success := status_ok, error := none, bodyRead := false }
  | some expected =>
      match r.body with
      | Except.ok body =>
          let content_ok := body.containsSubstr expected
          { success := status_ok && content_ok
            error := if content_ok then none
              else some ("Expected content not found in response: " ++ expected)
            bodyRead := true }
      | Except.error e =>
          { success := false
            error := some ("Failed to read response body: " ++ e)
            bodyRead := true }

/-! ### Alert evaluation (`Monitor::should_trigger_alert`,
`Monitor::check_alerts`, `monitor.rs` lines 260–312) -/

/-- Embedding of `Monitor::should_trigger_alert` (`monitor.rs` lines 292–312).
The loop returns `true` on the first firing trigger; `ConsecutiveFailures`
and `HealthScoreBelow` fall into the `_ => {}` arm and never fire.
The `target` argument is carried but, as in the source, unused. -/
def should_trigger_alert (alert : Alert) (target : Target) (check : HealthCheck) :
    Bool :=
  alert.trigger_on.any fun trigger =>
    match trigger with
    | AlertTrigger.ResponseTimeMs threshold => check.response_time > threshold
    | AlertTrigger.CertExpiringDays days =>
        match check.cert_expires_days with
        | some cert_days => cert_days ≤ days
        | none => false
    | _ => false

/-- The cooldown ledger `alert_cooldowns : HashMap<String, DateTime<Utc>>`,
as a map from key to the timestamp of the last dispatch (ms). -/
def Ledger : Type := String → Option Int

/-- The key `format!("{}:{}", alert.name, target.name)`. -/
def cooldownKey (alert : Alert) (target : Target) : String :=
  alert.name ++ ":" ++ target.name

/-- Value of `chrono::Duration::minutes(alert.cooldown_minutes)` in milliseconds. -/
def cooldownMs (alert : Alert) : Int :=
  60000 * (alert.cooldown_minutes : Int)

/-- Embedding of `HashMap::insert` on the ledger. -/
def Ledger.insert (led : Ledger) (key : String) (time : Int) : Ledger :=
  fun k => if k = key then some time else led k

/-- One alert's pass through the body of the `for alert in alerts` loop of
`Monitor::check_alerts` (`monitor.rs` lines 266–289): whether a webhook
was dispatched, and the resulting ledger. A dispatch happens only when
`now.signed_duration_since(last) > cooldown` (strictly) or no previous
dispatch is recorded, and then `now` is recorded under the key. -/
def checkAlertsOne (now : Int) (alert : Alert) (target : Target)
    (check : HealthCheck) (led : Ledger) : Bool × Ledger :=
  if should_trigger_alert alert target check then
    let key := cooldownKey alert target
    let should_send : Bool :=
      match led key with
      | some last_sent => decide (cooldownMs alert < now - last_sent)
      | none => true
    if should_send then (true, led.insert key now) else (false, led)
  else
    (false, led)

/-- Embedding of `Monitor::check_alerts`: the loop over all rules, threading the
ledger; returns the names of the rules that dispatched. -/
def check_alerts (now : Int) (alerts : List Alert) (target : Target)
    (check : HealthCheck) (led : Ledger) : List String × Ledger :=
  match alerts with
  | [] => ([], led)
  | alert :: rest =>
      let r := checkAlertsOne now alert target check led
      let rec' := check_alerts now rest target check r.snd
      (if r.fst then alert.name :: rec'.fst else rec'.fst, rec'.snd)

/-- The dispatch times produced for one (rule, target) pair by a run of
timestamped checks through `check_alerts`' per-pair logic. -/
def runPair (alert : Alert) (target : Target) :
    Ledger → List (Int × HealthCheck) → List Int
  | _, [] => []
  | led, (now, check) :: rest =>
      let r := checkAlertsOne now alert target check led
      if r.fst then now :: runPair alert target r.snd rest
      else runPair alert target r.snd rest

/-! ### Spec-side definitions (written from the specification's words,
for comparison with the embedded code) -/

/-- Spec §4.3 status classification: `consecutive_failures == 0` selects
among Healthy/Degraded/Unhealthy by uptime; 1 or 2 gives Degraded;
`≥ 3` gives Unhealthy. -/
def specStatus (cf : Nat) (uptime : ℚ) : HealthStatus :=
  if cf = 0 then
    if uptime ≥ 99 then HealthStatus.Healthy
    else if uptime ≥ 95 then HealthStatus.Degraded
    else HealthStatus.Unhealthy
  else if cf = 1 ∨ cf = 2 then HealthStatus.Degraded
  else HealthStatus.Unhealthy

/-- Spec §4.3 response-time step function: ≤500ms → 1.0; ≤2000ms → 0.8;
≤5000ms → 0.5; else 0.2. -/
def specRtScore (avg_ms : Nat) : ℚ :=
  if avg_ms ≤ 500 then 1
  else if avg_ms ≤ 2000 then 0.8
  else if avg_ms ≤ 5000 then 0.5
  else 0.2

/-- Spec §4.1 success criterion for a received response: the status code
is a member of the expected-status set (if non-empty) else any 2xx, AND,
if an expected-content substring is configured, the body was read
successfully and contains it. -/
def specSuccess (t : Target) (r : HttpResponse) : Bool :=
  statusOk t r.status_code
  && (match t.expected_content with
      | none => true
      | some expected =>
          match r.body with
          | Except.ok body => body.containsSubstr expected
          | Except.error _ => false)

/-! ### Projection lemmas for `update_with_check` -/

theorem update_total_checks (s : TargetHealth) (c : HealthCheck) :
    (s.update_with_check c).total_checks = s.total_checks + 1 := rfl

theorem update_successful_checks (s : TargetHealth) (c : HealthCheck) :
    (s.update_with_check c).successful_checks =
      if c.success then s.successful_checks + 1 else s.successful_checks := rfl

theorem update_consecutive_failures (s : TargetHealth) (c : HealthCheck) :
    (s.update_with_check c).consecutive_failures =
      if c.success then 0 else s.consecutive_failures + 1 := rfl

theorem update_avg_response_time (s : TargetHealth) (c : HealthCheck) :
    (s.update_with_check c).avg_response_time =
      (s.avg_response_time * (s.total_checks + 1 - 1) + c.response_time) /
        (s.total_checks + 1) := rfl

theorem update_uptime_percentage (s : TargetHealth) (c : HealthCheck) :
    (s.update_with_check c).uptime_percentage =
      ((if c.success then s.successful_checks + 1 else s.successful_checks : Nat) : ℚ) /
        ((s.total_checks + 1 : Nat) : ℚ) * 100 := rfl

theorem update_current_status (s : TargetHealth) (c : HealthCheck) :
    (s.update_with_check c).current_status =
      (let cf := (s.update_with_check c).consecutive_failures
       let up := (s.update_with_check c).uptime_percentage
       if cf = 0 then
         if up ≥ 99 then HealthStatus.Healthy
         else if up ≥ 95 then HealthStatus.Degraded
         else HealthStatus.Unhealthy
       else if cf ≥ 3 then HealthStatus.Unhealthy
       else HealthStatus.Degraded) := rfl

theorem update_health_score (s : TargetHealth) (c : HealthCheck) :
    (s.update_with_check c).health_score =
      (s.update_with_check c).uptime_percentage / 100 * 0.7 +
        (if (s.update_with_check c).avg_response_time ≤ 500 then (1 : ℚ)
         else if (s.update_with_check c).avg_response_time ≤ 2000 then 0.8
         else if (s.update_with_check c).avg_response_time ≤ 5000 then 0.5
         else 0.2) * 0.3 := rfl

theorem update_recent_checks (s : TargetHealth) (c : HealthCheck) :
    (s.update_with_check c).recent_checks =
      (if (s.recent_checks ++ [c]).length > 100 then (s.recent_checks ++ [c]).tail
       else s.recent_checks ++ [c]) := rfl

/-! ### Invariants of reachable aggregate states -/

theorem reachable_succ_le_total {t : Target} {s : TargetHealth}
    (h : Reachable t s) : s.successful_checks ≤ s.total_checks := by
  induction h with
  | init => simp [TargetHealth.new]
  | step c _ ih =>
      rw [update_successful_checks, update_total_checks]
      split <;> omega

theorem uptime_after_update_bounds (s : TargetHealth) (c : HealthCheck)
    (h : s.successful_checks ≤ s.total_checks) :
    0 ≤ (s.update_with_check c).uptime_percentage ∧
      (s.update_with_check c).uptime_percentage ≤ 100 := by
  rw [update_uptime_percentage]
  have hk : (if c.success then s.successful_checks + 1 else s.successful_checks)
      ≤ s.total_checks + 1 := by split <;> omega
  have hn : (0 : ℚ) < ((s.total_checks + 1 : Nat) : ℚ) := by positivity
  constructor
  · positivity
  · have hdiv : ((if c.success then s.successful_checks + 1 else s.successful_checks : Nat) : ℚ) /
        ((s.total_checks + 1 : Nat) : ℚ) ≤ 1 := by
      rw [div_le_one hn]
      exact_mod_cast hk
    nlinarith

theorem reachable_uptime_bounds {t : Target} {s : TargetHealth}
    (h : Reachable t s) :
    0 ≤ s.uptime_percentage ∧ s.uptime_percentage ≤ 100 := by
  induction h with
  | init => constructor <;> simp [TargetHealth.new]
  | step c hr _ => exact uptime_after_update_bounds _ c (reachable_succ_le_total hr)

theorem health_score_after_update_bounds (s : TargetHealth) (c : HealthCheck)
    (h : s.successful_checks ≤ s.total_checks) :
    0 ≤ (s.update_with_check c).health_score ∧
      (s.update_with_check c).health_score ≤ 1 := by
  have hup := uptime_after_update_bounds s c h
  rw [update_health_score]
  split_ifs <;> constructor <;> nlinarith [hup.1, hup.2]

theorem reachable_health_score_bounds {t : Target} {s : TargetHealth}
    (h : Reachable t s) : 0 ≤ s.health_score ∧ s.health_score ≤ 1 := by
  induction h with
  | init => constructor <;> simp [TargetHealth.new]
  | step c hr _ => exact health_score_after_update_bounds _ c (reachable_succ_le_total hr)

theorem reachable_recent_le {t : Target} {s : TargetHealth}
    (h : Reachable t s) : s.recent_checks.length ≤ 100 := by
  induction h with
  | init => simp [TargetHealth.new]
  | step c _ ih =>
      rw [update_recent_checks]
      split <;>
        simp only [List.length_tail, List.length_append, List.length_cons,
          List.length_nil, gt_iff_lt, not_lt] at * <;>
        omega

theorem update_status_ne_unknown (s : TargetHealth) (c : HealthCheck) :
    (s.update_with_check c).current_status ≠ HealthStatus.Unknown := by
  rw [update_current_status]
  dsimp only
  split_ifs <;> simp

theorem reachable_unknown_iff {t : Target} {s : TargetHealth}
    (h : Reachable t s) :
    (s.current_status = HealthStatus.Unknown ↔ s.total_checks = 0) := by
  induction h with
  | init => simp [TargetHealth.new]
  | step c _ _ =>
      rw [update_total_checks]
      simp [update_status_ne_unknown]

/-! ### Folding a sequence of checks through the aggregate -/

theorem foldl_total_checks :
    ∀ (cs : List HealthCheck) (s : TargetHealth),
      (cs.foldl TargetHealth.update_with_check s).total_checks =
        s.total_checks + cs.length := by
  intro cs
  induction cs with
  | nil => intro s; simp
  | cons c rest ih =>
      intro s
      simp only [List.foldl_cons, ih, update_total_checks, List.length_cons]
      omega

theorem foldl_successful_checks :
    ∀ (cs : List HealthCheck) (s : TargetHealth),
      (cs.foldl TargetHealth.update_with_check s).successful_checks =
        s.successful_checks + cs.countP (·.success) := by
  intro cs
  induction cs with
  | nil => intro s; simp
  | cons c rest ih =>
      intro s
      simp only [List.foldl_cons, ih, update_successful_checks, List.countP_cons]
      by_cases h : c.success <;> simp [h] <;> omega

theorem foldl_consecutive_failures_of_failures :
    ∀ (cs : List HealthCheck) (s : TargetHealth),
      (∀ x ∈ cs, x.success = false) →
      (cs.foldl TargetHealth.update_with_check s).consecutive_failures =
        s.consecutive_failures + cs.length := by
  intro cs
  induction cs with
  | nil => intro s _; simp
  | cons c rest ih =>
      intro s hall
      have hc : c.success = false := hall c (by simp)
      simp only [List.foldl_cons, List.length_cons]
      rw [ih _ (fun x hx => hall x (by simp [hx])), update_consecutive_failures,
        hc]
      simp
      omega

theorem reachable_foldl {t : Target} {s : TargetHealth}
    (h : Reachable t s) (cs : List HealthCheck) :
    Reachable t (cs.foldl TargetHealth.update_with_check s) := by
  induction cs generalizing s with
  | nil => exact h
  | cons c rest ih => exact ih (Reachable.step c h)

/-- After an all-successful, all-fast run the success counter tracks the
total and the integer average stays at most 500 ms. -/
theorem foldl_good_run :
    ∀ (cs : List HealthCheck) (s : TargetHealth),
      s.successful_checks = s.total_checks →
      s.avg_response_time ≤ 500 →
      (∀ x ∈ cs, x.success = true ∧ x.response_time ≤ 500) →
      (cs.foldl TargetHealth.update_with_check s).successful_checks =
          (cs.foldl TargetHealth.update_with_check s).total_checks ∧
        (cs.foldl TargetHealth.update_with_check s).avg_response_time ≤ 500 := by
  intro cs
  induction cs with
  | nil => intro s h1 h2 _; exact ⟨h1, h2⟩
  | cons c rest ih =>
      intro s h1 h2 hall
      have hc := hall c (by simp)
      simp only [List.foldl_cons]
      refine ih _ ?_ ?_ (fun x hx => hall x (by simp [hx]))
      · rw [update_successful_checks, update_total_checks, hc.1, if_pos rfl, h1]
      · rw [update_avg_response_time]
        have hnum : s.avg_response_time * (s.total_checks + 1 - 1) + c.response_time
            ≤ 500 * (s.total_checks + 1) := by
          have hsub : s.total_checks + 1 - 1 = s.total_checks := by omega
          have hmul : s.avg_response_time * s.total_checks ≤ 500 * s.total_checks :=
            Nat.mul_le_mul_right _ h2
          rw [hsub, Nat.mul_succ]
          have := hc.2
          omega
        calc (s.avg_response_time * (s.total_checks + 1 - 1) + c.response_time) /
              (s.total_checks + 1)
            ≤ 500 * (s.total_checks + 1) / (s.total_checks + 1) :=
              Nat.div_le_div_right hnum
          _ = 500 := Nat.mul_div_cancel 500 (by omega)

/-- The stored uptime of any updated state is recomputed from its own
stored counters. -/
theorem update_uptime_eq (s : TargetHealth) (c : HealthCheck) :
    (s.update_with_check c).uptime_percentage =
      ((s.update_with_check c).successful_checks : ℚ) /
        ((s.update_with_check c).total_checks : ℚ) * 100 := by
  rw [update_uptime_percentage, update_successful_checks, update_total_checks]

/-- Once the updated consecutive-failure count is nonzero and at least 3,
the classification is Unhealthy. -/
theorem update_status_unhealthy_of_cf (s : TargetHealth) (c : HealthCheck)
    (h1 : (s.update_with_check c).consecutive_failures ≠ 0)
    (h2 : 3 ≤ (s.update_with_check c).consecutive_failures) :
    (s.update_with_check c).current_status = HealthStatus.Unhealthy := by
  rw [update_current_status]
  dsimp only
  rw [if_neg h1, if_pos h2]

/-! ### The cooldown ledger dynamics -/

theorem cooldownMs_nonneg (alert : Alert) : 0 ≤ cooldownMs alert := by
  unfold cooldownMs
  positivity

/-- Gap invariant of the per-pair cooldown mechanism: dispatch times
produced by a run are pairwise more than one cooldown apart, and every
dispatch is more than one cooldown after the time already recorded in the
ledger for the pair's key. -/
theorem runPair_cons (alert : Alert) (target : Target) (led : Ledger)
    (now : Int) (check : HealthCheck) (rest : List (Int × HealthCheck)) :
    runPair alert target led ((now, check) :: rest) =
      (if (checkAlertsOne now alert target check led).fst then
        now :: runPair alert target (checkAlertsOne now alert target check led).snd rest
      else runPair alert target (checkAlertsOne now alert target check led).snd rest) :=
  rfl

/-- Gap invariant of the per-pair cooldown mechanism: dispatch times
produced by a run are pairwise more than one cooldown apart, and every
dispatch is more than one cooldown after the time already recorded in the
ledger for the pair's key. -/
theorem runPair_gaps (alert : Alert) (target : Target) :
    ∀ (events : List (Int × HealthCheck)) (led : Ledger),
      (runPair alert target led events).Pairwise
          (fun x y => cooldownMs alert < y - x) ∧
        (∀ last, led (cooldownKey alert target) = some last →
          ∀ d ∈ runPair alert target led events, cooldownMs alert < d - last) := by
  intro events
  induction events with
  | nil => intro led; simp [runPair]
  | cons e rest ih =>
      intro led
      obtain ⟨now, check⟩ := e
      by_cases htrig : should_trigger_alert alert target check = true
      · cases hled : led (cooldownKey alert target) with
        | none =>
            -- no previous dispatch: dispatch now and record it
            have hstep : checkAlertsOne now alert target check led =
                (true, led.insert (cooldownKey alert target) now) := by
              simp [checkAlertsOne, htrig, hled]
            rw [runPair_cons, hstep]
            simp only [if_true]
            have hkey : (led.insert (cooldownKey alert target) now)
                (cooldownKey alert target) = some now := by
              simp [Ledger.insert]
            constructor
            · exact List.pairwise_cons.mpr
                ⟨fun d hd => (ih _).2 now hkey d hd, (ih _).1⟩
            · intro last hlast
              exact absurd hlast (by simp)
        | some last =>
            by_cases hsend : cooldownMs alert < now - last
            · -- previous dispatch more than one cooldown ago: dispatch again
              have hstep : checkAlertsOne now alert target check led =
                  (true, led.insert (cooldownKey alert target) now) := by
                simp [checkAlertsOne, htrig, hled, hsend]
              rw [runPair_cons, hstep]
              simp only [if_true]
              have hkey : (led.insert (cooldownKey alert target) now)
                  (cooldownKey alert target) = some now := by
                simp [Ledger.insert]
              have htail : ∀ d ∈ runPair alert target
                  (led.insert (cooldownKey alert target) now) rest,
                  cooldownMs alert < d - now :=
                fun d hd => (ih _).2 now hkey d hd
              constructor
              · exact List.pairwise_cons.mpr ⟨htail, (ih _).1⟩
              · intro last' hlast' d hd
                obtain rfl : last = last' := Option.some.inj hlast'
                rcases List.mem_cons.mp hd with rfl | hd
                · exact hsend
                · have h1 := htail d hd
                  have h0 := cooldownMs_nonneg alert
                  linarith
            · -- still inside the cooldown window: suppress, ledger unchanged
              have hstep : checkAlertsOne now alert target check led =
                  (false, led) := by
                simp [checkAlertsOne, htrig, hled, hsend]
              rw [runPair_cons, hstep]
              simp only [Bool.false_eq_true, if_false]
              constructor
              · exact (ih led).1
              · intro last' hlast' d hd
                obtain rfl : last = last' := Option.some.inj hlast'
                exact (ih led).2 last hled d hd
      · -- no trigger fired: nothing dispatched, ledger unchanged
        have hstep : checkAlertsOne now alert target check led = (false, led) := by
          simp [checkAlertsOne, htrig]
        rw [runPair_cons, hstep]
        simp only [Bool.false_eq_true, if_false]
        exact ih led

/-! ### Concrete instances used in counterexamples and witnesses -/

/-- A concrete probe outcome with the given success flag, response time
(ms) and timestamp. -/
def mkCheck (succ : Bool) (rt : Nat) (ts : Int) : HealthCheck where
  target := "api"
  timestamp := ts
  success := succ
  status_code := some 200
  response_time := rt
  error := none
  cert_expires_days := none
  dns_time := none
  connect_time := none

/-- A concrete target: 5-second per-target timeout, no expected content. -/
def exTarget : Target where
  name := "api"
  url := "http://api.example.com/health"
  method := "GET"
  headers := []
  expected_status := []
  expected_content := none
  timeout_seconds := 5
  interval_seconds := 30

/-- Default settings as produced by `config.rs` (`default_timeout` 10 s). -/
def exSettings : Settings where
  default_interval := 60
  default_timeout := 10
  max_consecutive_failures := 3
  health_check_window_minutes := 60
  output_format := OutputFormat.Pretty
  enable_colors := true
  log_file := none

/-- A configuration whose sole target asks for a 5-second timeout while
the global default is 10 seconds. -/
def exConfig : Config where
  targets := [exTarget]
  settings := exSettings
  alerts := []

/-- The response-time sequence 0,1,2,3 ms (all successful checks) on
which the incremental average drifts. -/
def driftChecks : List HealthCheck :=
  [mkCheck true 0 0, mkCheck true 1 1, mkCheck true 2 2, mkCheck true 3 3]

/-- The aggregate after folding `driftChecks` from the initial state. -/
def driftAgg : TargetHealth :=
  driftChecks.foldl TargetHealth.update_with_check (TargetHealth.new exTarget)

/-- An alert rule with a `ResponseTimeMs(100)` trigger and a 30-minute
cooldown (spec Scenario C). -/
def exAlertRT : Alert where
  name := "slow"
  webhook_url := "http://hooks.example.com/x"
  trigger_on := [AlertTrigger.ResponseTimeMs 100]
  cooldown_minutes := 30

/-- A rule carrying only a `ConsecutiveFailures(1)` trigger. -/
def exAlertCF : Alert where
  name := "failures"
  webhook_url := "http://hooks.example.com/x"
  trigger_on := [AlertTrigger.ConsecutiveFailures 1]
  cooldown_minutes := 30

/-- A rule carrying only a `HealthScoreBelow(0.5)` trigger. -/
def exAlertHS : Alert where
  name := "lowscore"
  webhook_url := "http://hooks.example.com/x"
  trigger_on := [AlertTrigger.HealthScoreBelow 0.5]
  cooldown_minutes := 30

/-- A check whose elapsed time (150 ms) exceeds the 100 ms threshold. -/
def exCheck150 : HealthCheck := mkCheck true 150 0

/-- The empty cooldown ledger. -/
def emptyLedger : Ledger := fun _ => none

/-- A ledger recording a dispatch for `slow:api` at time 0. -/
def exLedgerC3 : Ledger :=
  fun k => if k = "slow:api" then some 0 else none

/-- The aggregate after one failed check: one consecutive failure and a
health score of 0.3. -/
def exAggFailed : TargetHealth :=
  (TargetHealth.new exTarget).update_with_check (mkCheck false 0 0)

/-- Scenario-D target: `expected_status = [200, 301, 302]`, no expected
content. -/
def exTargetD : Target :=
  { exTarget with expected_status := [200, 301, 302] }

/-! ### Claim theorems -/

/-- Claim C9: on every aggregate update, `consecutive_failures` becomes
exactly 0 when the incoming check succeeded and exactly its previous
value plus 1 when it failed; the only other operation on the aggregate,
`TargetHealth::new`, initializes it to 0 and nothing else touches it. -/
theorem claim_C9_consecutive_failures :
    (∀ (s : TargetHealth) (c : HealthCheck),
      (s.update_with_check c).consecutive_failures =
        if c.success then 0 else s.consecutive_failures + 1) ∧
    (∀ t : Target, (TargetHealth.new t).consecutive_failures = 0) :=
  ⟨update_consecutive_failures, fun _ => rfl⟩

/-- Claim C10: in every reachable state the history buffer holds at most
100 entries; an append below capacity keeps all entries in FIFO order and
an append at capacity 100 evicts exactly the oldest entry. -/
theorem claim_C10_history_buffer :
    ∀ (t : Target) (s : TargetHealth) (c : HealthCheck),
      Reachable t s →
      s.recent_checks.length ≤ 100 ∧
        (s.update_with_check c).recent_checks.length ≤ 100 ∧
        (s.recent_checks.length < 100 →
          (s.update_with_check c).recent_checks = s.recent_checks ++ [c]) ∧
        (s.recent_checks.length = 100 →
          (s.update_with_check c).recent_checks = s.recent_checks.tail ++ [c]) := by
  intro t s c hr
  refine ⟨reachable_recent_le hr, reachable_recent_le (hr.step c), ?_, ?_⟩
  · intro hlt
    rw [update_recent_checks, if_neg]
    simp only [List.length_append, List.length_cons, List.length_nil, gt_iff_lt,
      not_lt]
    omega
  · intro heq
    rw [update_recent_checks, if_pos (by simp [heq])]
    cases hrc : s.recent_checks with
    | nil => rw [hrc] at heq; simp at heq
    | cons a l => simp

/-- Witness for C10: the empty initial history, extended by one check. -/
theorem claim_C10_history_buffer_witness :
    (TargetHealth.new exTarget).recent_checks.length ≤ 100 ∧
      ((TargetHealth.new exTarget).update_with_check
        (mkCheck true 10 0)).recent_checks.length ≤ 100 ∧
      ((TargetHealth.new exTarget).recent_checks.length < 100 →
        ((TargetHealth.new exTarget).update_with_check
          (mkCheck true 10 0)).recent_checks =
            (TargetHealth.new exTarget).recent_checks ++ [mkCheck true 10 0]) ∧
      ((TargetHealth.new exTarget).recent_checks.length = 100 →
        ((TargetHealth.new exTarget).update_with_check
          (mkCheck true 10 0)).recent_checks =
            (TargetHealth.new exTarget).recent_checks.tail ++ [mkCheck true 10 0]) :=
  claim_C10_history_buffer exTarget (TargetHealth.new exTarget)
    (mkCheck true 10 0) Reachable.init

/-- Claim C8: after any non-empty sequence of `n` checks of which `k`
succeeded, the stored uptime percentage is exactly `100·k/n`, and the
stored counters are exactly `k` and `n`. -/
theorem claim_C8_uptime_exact :
    ∀ (t : Target) (cs : List HealthCheck),
      cs ≠ [] →
      (cs.foldl TargetHealth.update_with_check (TargetHealth.new t)).uptime_percentage =
          100 * ((cs.countP (·.success) : Nat) : ℚ) / ((cs.length : Nat) : ℚ) ∧
        (cs.foldl TargetHealth.update_with_check
            (TargetHealth.new t)).successful_checks = cs.countP (·.success) ∧
        (cs.foldl TargetHealth.update_with_check
            (TargetHealth.new t)).total_checks = cs.length := by
  intro t cs hne
  have hsucc := foldl_successful_checks cs (TargetHealth.new t)
  have htot := foldl_total_checks cs (TargetHealth.new t)
  rw [show (TargetHealth.new t).successful_checks = 0 from rfl, Nat.zero_add]
    at hsucc
  rw [show (TargetHealth.new t).total_checks = 0 from rfl, Nat.zero_add] at htot
  refine ⟨?_, hsucc, htot⟩
  obtain ⟨l, b, rfl⟩ := (List.eq_nil_or_concat cs).resolve_left hne
  simp only [List.concat_eq_append] at hsucc htot ⊢
  have hF : (l ++ [b]).foldl TargetHealth.update_with_check (TargetHealth.new t) =
      (l.foldl TargetHealth.update_with_check (TargetHealth.new t)).update_with_check
        b := by
    rw [List.foldl_append]
    rfl
  rw [hF, update_uptime_eq, ← hF, hsucc, htot]
  ring

/-- Witness for C8: a single successful check. -/
theorem claim_C8_uptime_exact_witness :
    [mkCheck true 100 0] ≠ ([] : List HealthCheck) ∧
      (([mkCheck true 100 0].foldl TargetHealth.update_with_check
          (TargetHealth.new exTarget)).uptime_percentage =
        100 * (([mkCheck true 100 0].countP (·.success) : Nat) : ℚ) /
          (([mkCheck true 100 0].length : Nat) : ℚ) ∧
      ([mkCheck true 100 0].foldl TargetHealth.update_with_check
          (TargetHealth.new exTarget)).successful_checks =
        [mkCheck true 100 0].countP (·.success) ∧
      ([mkCheck true 100 0].foldl TargetHealth.update_with_check
          (TargetHealth.new exTarget)).total_checks = [mkCheck true 100 0].length) :=
  ⟨by simp, claim_C8_uptime_exact exTarget [mkCheck true 100 0] (by simp)⟩

/-- The status stored by an update agrees with the specification's
classification of the updated failure count and uptime. -/
theorem update_status_eq_spec (s : TargetHealth) (c : HealthCheck) :
    (s.update_with_check c).current_status =
      specStatus (s.update_with_check c).consecutive_failures
        (s.update_with_check c).uptime_percentage := by
  rw [update_current_status]
  dsimp only
  unfold specStatus
  split_ifs <;> first | rfl | omega

/-- Claim C5: statuses of reachable aggregates are classified exactly as
specified — `Unknown` iff no check has been recorded yet, every update
classifies by the spec's consecutive-failures/uptime table, and any four
consecutive failures leave the target `Unhealthy` regardless of prior
history. -/
theorem claim_C5_status_classification :
    ∀ (t : Target) (s : TargetHealth) (c : HealthCheck) (cs : List HealthCheck),
      Reachable t s →
      (∀ x ∈ cs, x.success = false) →
      cs.length = 4 →
      (s.current_status = HealthStatus.Unknown ↔ s.total_checks = 0) ∧
        (s.update_with_check c).current_status =
          specStatus (s.update_with_check c).consecutive_failures
            (s.update_with_check c).uptime_percentage ∧
        (cs.foldl TargetHealth.update_with_check s).current_status =
          HealthStatus.Unhealthy := by
  intro t s c cs hr hall hlen
  refine ⟨reachable_unknown_iff hr, update_status_eq_spec s c, ?_⟩
  have hne : cs ≠ [] := List.ne_nil_of_length_pos (by omega)
  obtain ⟨l, b, rfl⟩ := (List.eq_nil_or_concat cs).resolve_left hne
  simp only [List.concat_eq_append] at hall hlen ⊢
  have hb : b.success = false := hall b (by simp)
  have hl : ∀ x ∈ l, x.success = false := fun x hx => hall x (by simp [hx])
  have hlen' : l.length = 3 := by
    simp only [List.length_append, List.length_cons, List.length_nil] at hlen
    omega
  have hF : (l ++ [b]).foldl TargetHealth.update_with_check s =
      (l.foldl TargetHealth.update_with_check s).update_with_check b := by
    rw [List.foldl_append]
    rfl
  have hcf : (l.foldl TargetHealth.update_with_check s).consecutive_failures =
      s.consecutive_failures + 3 := by
    rw [foldl_consecutive_failures_of_failures l s hl, hlen']
  have hcf' : ((l.foldl TargetHealth.update_with_check s).update_with_check
      b).consecutive_failures = s.consecutive_failures + 4 := by
    rw [update_consecutive_failures, hb]
    simp [hcf]
  rw [hF]
  exact update_status_unhealthy_of_cf _ b (by omega) (by omega)

/-- Witness for C5: the initial state and four failed checks. -/
theorem claim_C5_status_classification_witness :
    (∀ x ∈ [mkCheck false 0 0, mkCheck false 0 1, mkCheck false 0 2,
        mkCheck false 0 3], x.success = false) ∧
      [mkCheck false 0 0, mkCheck false 0 1, mkCheck false 0 2,
        mkCheck false 0 3].length = 4 ∧
      (((TargetHealth.new exTarget).current_status = HealthStatus.Unknown ↔
          (TargetHealth.new exTarget).total_checks = 0) ∧
        ((TargetHealth.new exTarget).update_with_check
            (mkCheck true 10 0)).current_status =
          specStatus ((TargetHealth.new exTarget).update_with_check
              (mkCheck true 10 0)).consecutive_failures
            ((TargetHealth.new exTarget).update_with_check
              (mkCheck true 10 0)).uptime_percentage ∧
        ([mkCheck false 0 0, mkCheck false 0 1, mkCheck false 0 2,
            mkCheck false 0 3].foldl TargetHealth.update_with_check
          (TargetHealth.new exTarget)).current_status = HealthStatus.Unhealthy) :=
  ⟨by decide, by decide,
    claim_C5_status_classification exTarget (TargetHealth.new exTarget)
      (mkCheck true 10 0)
      [mkCheck false 0 0, mkCheck false 0 1, mkCheck false 0 2, mkCheck false 0 3]
      Reachable.init (by decide) (by decide)⟩

/-- Claim C7: every update stores
`health_score = 0.7·(uptime/100) + 0.3·response_time_score` with the
specified step function; the score lies in `[0, 1]` in every reachable
state including the initial one; and 100 consecutive successful checks,
each at most 500 ms, yield a score of exactly 1. -/
theorem claim_C7_health_score :
    ∀ (t : Target) (s : TargetHealth) (c : HealthCheck) (cs : List HealthCheck),
      Reachable t s →
      cs.length = 100 →
      (∀ x ∈ cs, x.success = true ∧ x.response_time ≤ 500) →
      (s.update_with_check c).health_score =
          0.7 * ((s.update_with_check c).uptime_percentage / 100) +
            0.3 * specRtScore (s.update_with_check c).avg_response_time ∧
        (0 ≤ s.health_score ∧ s.health_score ≤ 1) ∧
        (cs.foldl TargetHealth.update_with_check
          (TargetHealth.new t)).health_score = 1 := by
  intro t s c cs hr hlen hall
  refine ⟨?_, reachable_health_score_bounds hr, ?_⟩
  · rw [update_health_score]
    unfold specRtScore
    ring
  · have hne : cs ≠ [] := List.ne_nil_of_length_pos (by omega)
    have hgood := foldl_good_run cs (TargetHealth.new t) rfl (Nat.zero_le 500) hall
    have htot := foldl_total_checks cs (TargetHealth.new t)
    rw [show (TargetHealth.new t).total_checks = 0 from rfl, Nat.zero_add, hlen]
      at htot
    obtain ⟨l, b, rfl⟩ := (List.eq_nil_or_concat cs).resolve_left hne
    simp only [List.concat_eq_append] at hgood htot ⊢
    have hF : (l ++ [b]).foldl TargetHealth.update_with_check
        (TargetHealth.new t) =
        (l.foldl TargetHealth.update_with_check
          (TargetHealth.new t)).update_with_check b := by
      rw [List.foldl_append]
      rfl
    have hcast : (((l ++ [b]).foldl TargetHealth.update_with_check
        (TargetHealth.new t)).total_checks : ℚ) ≠ 0 := by
      rw [htot]
      norm_num
    have hup : ((l ++ [b]).foldl TargetHealth.update_with_check
        (TargetHealth.new t)).uptime_percentage = 100 := by
      rw [hF, update_uptime_eq, ← hF, hgood.1, div_self hcast]
      norm_num
    rw [hF, update_health_score, ← hF, hup, if_pos hgood.2]
    norm_num

/-- Witness for C7: the initial state, one fresh check, and 100 identical
successful 100 ms checks. -/
theorem claim_C7_health_score_witness :
    (List.replicate 100 (mkCheck true 100 0)).length = 100 ∧
      (∀ x ∈ List.replicate 100 (mkCheck true 100 0),
        x.success = true ∧ x.response_time ≤ 500) ∧
      (((TargetHealth.new exTarget).update_with_check
            (mkCheck true 10 0)).health_score =
          0.7 * (((TargetHealth.new exTarget).update_with_check
              (mkCheck true 10 0)).uptime_percentage / 100) +
            0.3 * specRtScore ((TargetHealth.new exTarget).update_with_check
              (mkCheck true 10 0)).avg_response_time ∧
        (0 ≤ (TargetHealth.new exTarget).health_score ∧
          (TargetHealth.new exTarget).health_score ≤ 1) ∧
        ((List.replicate 100 (mkCheck true 100 0)).foldl
          TargetHealth.update_with_check
          (TargetHealth.new exTarget)).health_score = 1) :=
  ⟨by simp,
    fun x hx => by
      rw [List.eq_of_mem_replicate hx]
      exact ⟨rfl, by norm_num [mkCheck]⟩,
    claim_C7_health_score exTarget (TargetHealth.new exTarget) (mkCheck true 10 0)
      (List.replicate 100 (mkCheck true 100 0)) Reachable.init (by simp)
      (fun x hx => by
        rw [List.eq_of_mem_replicate hx]
        exact ⟨rfl, by norm_num [mkCheck]⟩)⟩

/-- Claim C2 fails on the code: for the response-time sequence
0, 1, 2, 3 ms (four successful checks) the stored average is 0 ms while
the true arithmetic mean is 1.5 ms — more than one millisecond apart, so
the incremental rule does not preserve the mean within one time unit. -/
theorem claim_C2_average_drifts :
    driftAgg.avg_response_time = 0 ∧
      driftAgg.total_checks = 4 ∧
      ((driftChecks.map fun c => (c.response_time : ℚ)).sum /
          (driftChecks.length : ℚ) = 3 / 2) ∧
      ¬((driftChecks.map fun c => (c.response_time : ℚ)).sum /
            (driftChecks.length : ℚ) - (driftAgg.avg_response_time : ℚ) ≤ 1) := by
  refine ⟨rfl, rfl, ?_, ?_⟩
  · norm_num [driftChecks, mkCheck]
  · rw [show driftAgg.avg_response_time = 0 from rfl]
    norm_num [driftChecks, mkCheck]

/-- Claim C1 fails on the code: `should_trigger_alert` ignores
`ConsecutiveFailures` and `HealthScoreBelow` triggers entirely, returning
`false` for any check even when the aggregate's consecutive-failure count
or health score satisfies the trigger's condition. -/
theorem claim_C1_stateful_triggers_never_fire :
    ∀ (a b : Alert) (t : Target) (c : HealthCheck) (s : TargetHealth)
      (n : Nat) (x : ℚ),
      a.trigger_on = [AlertTrigger.ConsecutiveFailures n] →
      n ≤ s.consecutive_failures →
      b.trigger_on = [AlertTrigger.HealthScoreBelow x] →
      s.health_score < x →
      should_trigger_alert a t c = false ∧
        should_trigger_alert b t c = false := by
  intro a b t c s n x ha _ hb _
  refine ⟨?_, ?_⟩
  · unfold should_trigger_alert
    rw [ha]
    simp
  · unfold should_trigger_alert
    rw [hb]
    simp

/-- Witness for C1: an aggregate with one consecutive failure and health
score 0.3, against rules triggering at 1 failure and at score 0.5. -/
theorem claim_C1_stateful_triggers_never_fire_witness :
    exAlertCF.trigger_on = [AlertTrigger.ConsecutiveFailures 1] ∧
      1 ≤ exAggFailed.consecutive_failures ∧
      exAlertHS.trigger_on = [AlertTrigger.HealthScoreBelow 0.5] ∧
      exAggFailed.health_score < 0.5 ∧
      (should_trigger_alert exAlertCF exTarget (mkCheck false 0 0) = false ∧
        should_trigger_alert exAlertHS exTarget (mkCheck false 0 0) = false) :=
  ⟨rfl, by decide, rfl,
    by
      rw [exAggFailed, update_health_score, update_uptime_percentage,
        update_avg_response_time]
      norm_num [TargetHealth.new, mkCheck],
    claim_C1_stateful_triggers_never_fire exAlertCF exAlertHS exTarget
      (mkCheck false 0 0) exAggFailed 1 0.5 rfl (by decide) rfl
      (by
        rw [exAggFailed, update_health_score, update_uptime_percentage,
          update_avg_response_time]
        norm_num [TargetHealth.new, mkCheck])⟩

/-- Claim C4 fails on the code: the probe request's timeout is always the
single client's `settings.default_timeout` installed by `Monitor::new`,
never the target's own `timeout_seconds` — shown both in general and on a
config whose target asks for 5 s while the global default is 10 s. The
method and headers, by contrast, do come from the target. -/
theorem claim_C4_timeout_is_global_default :
    (∀ (cfg : Config) (t : Target) (ua : String),
      (buildRequest cfg t ua).timeout = cfg.settings.default_timeout ∧
        (buildRequest cfg t ua).method = parseMethod t.method ∧
        (buildRequest cfg t ua).headers = effectiveHeaders t ua) ∧
      (buildRequest exConfig exTarget "UA").timeout = 10 ∧
      exTarget.timeout_seconds = 5 ∧
      (buildRequest exConfig exTarget "UA").timeout ≠ exTarget.timeout_seconds := by
  refine ⟨fun cfg t ua => ⟨rfl, rfl, rfl⟩, rfl, rfl, ?_⟩
  rw [show (buildRequest exConfig exTarget "UA").timeout = 10 from rfl,
    show exTarget.timeout_seconds = 5 from rfl]
  norm_num

/-- Claim C6: the probe's success flag on a received response equals the
spec's criterion — expected-status membership (else 2xx) AND, when an
expected-content substring is configured, the body contains it, with a
body-read failure counting as failure — and the body is read exactly when
`expected_content` is configured. Scenario D: with
`expected_status = [200, 301, 302]` and no expected content, a 301
response succeeds and a 404 fails, neither reading the body. -/
theorem claim_C6_success_criterion :
    (∀ (t : Target) (r : HttpResponse),
      (classifyResponse t r).success = specSuccess t r ∧
        (classifyResponse t r).bodyRead = t.expected_content.isSome) ∧
      (classifyResponse exTargetD
        { status_code := 301, body := Except.ok "" }).success = true ∧
      (classifyResponse exTargetD
        { status_code := 404, body := Except.ok "" }).success = false ∧
      (classifyResponse exTargetD
        { status_code := 404, body := Except.ok "" }).bodyRead = false := by
  refine ⟨fun t r => ?_, by decide, by decide, by decide⟩
  unfold classifyResponse specSuccess
  cases hec : t.expected_content with
  | none => simp [hec]
  | some ec =>
      cases hb : r.body with
      | ok body => simp [hec, hb]
      | error e => simp [hec, hb]

/-- Claim C3 as stated fails at the window boundary: with a 30-minute
cooldown and the last dispatch for the pair recorded exactly 30 minutes
(1800000 ms) before a firing check, that dispatch is not within (less
than one cooldown of) the window, so the claim requires a new dispatch —
but the code suppresses, since it dispatches only when the elapsed time
strictly exceeds the cooldown. -/
theorem claim_C3_boundary_counterexample :
    should_trigger_alert exAlertRT exTarget exCheck150 = true ∧
      exLedgerC3 (cooldownKey exAlertRT exTarget) = some 0 ∧
      ¬((1800000 : Int) - 0 < cooldownMs exAlertRT) ∧
      (checkAlertsOne 1800000 exAlertRT exTarget exCheck150 exLedgerC3).fst =
        false :=
  ⟨by decide, by decide, by decide, by decide⟩

/-- Claim C3 (amended): when a rule's predicate fires, the dispatch is
suppressed iff a dispatch for the (rule, target) key is recorded at most
one cooldown ago (dispatching requires the elapsed time to strictly
exceed the cooldown); a dispatch records its time under the key and a
suppression leaves the ledger unchanged; consequently any run's dispatch
times for one pair are pairwise more than one cooldown apart, and in
Scenario C (threshold 100 ms, cooldown 30 min, firing checks at 0 ms,
1 min, 31 min) exactly the first and third checks dispatch. -/
theorem claim_C3_cooldown_amended :
    ∀ (a : Alert) (t : Target) (c : HealthCheck) (led : Ledger) (now : Int)
      (events : List (Int × HealthCheck)),
      should_trigger_alert a t c = true →
      (((checkAlertsOne now a t c led).fst = true ↔
          ∀ last, led (cooldownKey a t) = some last →
            cooldownMs a < now - last) ∧
        ((checkAlertsOne now a t c led).fst = true →
          (checkAlertsOne now a t c led).snd (cooldownKey a t) = some now) ∧
        ((checkAlertsOne now a t c led).fst = false →
          (checkAlertsOne now a t c led).snd = led) ∧
        (runPair a t led events).Pairwise (fun x y => cooldownMs a < y - x) ∧
        runPair exAlertRT exTarget emptyLedger
            [(0, exCheck150), (60000, exCheck150), (1860000, exCheck150)] =
          [0, 1860000]) := by
  intro a t c led now events htrig
  refine ⟨?_, ?_, ?_, (runPair_gaps a t events led).1, by decide⟩
  · cases hled : led (cooldownKey a t) with
    | none =>
        have hfst : (checkAlertsOne now a t c led).fst = true := by
          simp [checkAlertsOne, htrig, hled]
        rw [hfst]
        simp only [true_iff]
        intro last hlast
        exact absurd hlast (by simp)
    | some last =>
        by_cases hsend : cooldownMs a < now - last
        · have hfst : (checkAlertsOne now a t c led).fst = true := by
            simp [checkAlertsOne, htrig, hled, hsend]
          rw [hfst]
          simp only [true_iff]
          intro last' hlast'
          cases Option.some.inj hlast'
          exact hsend
        · have hfst : (checkAlertsOne now a t c led).fst = false := by
            simp [checkAlertsOne, htrig, hled, hsend]
          rw [hfst]
          constructor
          · intro h
            exact absurd h (by simp)
          · intro hall'
            exact absurd (hall' last rfl) hsend
  · intro hsent
    cases hled : led (cooldownKey a t) with
    | none =>
        have hstep : checkAlertsOne now a t c led =
            (true, led.insert (cooldownKey a t) now) := by
          simp [checkAlertsOne, htrig, hled]
        rw [hstep]
        simp [Ledger.insert]
    | some last =>
        by_cases hsend : cooldownMs a < now - last
        · have hstep : checkAlertsOne now a t c led =
              (true, led.insert (cooldownKey a t) now) := by
            simp [checkAlertsOne, htrig, hled, hsend]
          rw [hstep]
          simp [Ledger.insert]
        · have hstep : checkAlertsOne now a t c led = (false, led) := by
            simp [checkAlertsOne, htrig, hled, hsend]
          rw [hstep] at hsent
          exact absurd hsent (by simp)
  · intro hsup
    cases hled : led (cooldownKey a t) with
    | none =>
        have hfst : (checkAlertsOne now a t c led).fst = true := by
          simp [checkAlertsOne, htrig, hled]
        rw [hfst] at hsup
        exact absurd hsup (by simp)
    | some last =>
        by_cases hsend : cooldownMs a < now - last
        · have hfst : (checkAlertsOne now a t c led).fst = true := by
            simp [checkAlertsOne, htrig, hled, hsend]
          rw [hfst] at hsup
          exact absurd hsup (by simp)
        · have hstep : checkAlertsOne now a t c led = (false, led) := by
            simp [checkAlertsOne, htrig, hled, hsend]
          rw [hstep]

/-- Witness for the amended C3: Scenario C's rule, target, a firing check
at the ledger's start, and the scenario's event run. -/
theorem claim_C3_cooldown_amended_witness :
    should_trigger_alert exAlertRT exTarget exCheck150 = true ∧
      (((checkAlertsOne 0 exAlertRT exTarget exCheck150 emptyLedger).fst = true ↔
          ∀ last, emptyLedger (cooldownKey exAlertRT exTarget) = some last →
            cooldownMs exAlertRT < 0 - last) ∧
        ((checkAlertsOne 0 exAlertRT exTarget exCheck150 emptyLedger).fst = true →
          (checkAlertsOne 0 exAlertRT exTarget exCheck150 emptyLedger).snd
            (cooldownKey exAlertRT exTarget) = some 0) ∧
        ((checkAlertsOne 0 exAlertRT exTarget exCheck150 emptyLedger).fst = false →
          (checkAlertsOne 0 exAlertRT exTarget exCheck150 emptyLedger).snd =
            emptyLedger) ∧
        (runPair exAlertRT exTarget emptyLedger
            [(0, exCheck150), (60000, exCheck150), (1860000, exCheck150)]).Pairwise
          (fun x y => cooldownMs exAlertRT < y - x) ∧
        runPair exAlertRT exTarget emptyLedger
            [(0, exCheck150), (60000, exCheck150), (1860000, exCheck150)] =
          [0, 1860000]) :=
  ⟨by decide,
    claim_C3_cooldown_amended exAlertRT exTarget exCheck150 emptyLedger 0
      [(0, exCheck150), (60000, exCheck150), (1860000, exCheck150)] (by decide)⟩

end HttpPing
